import Mathlib

/-!
Verification of the navix gridworld state-transition engine.

This file gives a shallow embedding of the environment core: the entity and
grid data model of `navix/components.py`, the step and auto-reset machinery of
`navix/environments/environment.py`, and the two `Room` environment variants of
`navix/environments/room.py` and `navix/environments/empty.py`.  Code of the
repository that is not among the sources (the `room` grid constructor, the
`check_truncation` combiner, the random placement helpers and the random key
splitting) is modelled from the specification, as marked on each definition.
-/

namespace Navix

/-! ## Grid data model -/

/-- A grid is a rectangular array of integer cell ids: 0 is floor, -1 is wall,
positive values index into the entity registry (spec section 3). -/
abbrev Grid := List (List Int)

/-- Errors raised by grid construction and placement (spec section 7:
configuration errors raised eagerly). -/
inductive GridError where
  | InvalidDimension : GridError
  | CapacityError : GridError
deriving DecidableEq

/-- The cell pattern of a rectangular room: a 1-cell-thick wall border around a
floor interior. -/
def mkRoomCells (height width : Nat) : List (List Int) :=
  (List.range height).map (fun i =>
    (List.range width).map (fun j =>
      if i = 0 ∨ i = height - 1 ∨ j = 0 ∨ j = width - 1 then (-1 : Int) else 0))

/-- Modelled from the spec: `room(height, width)` produces a Grid with a
1-cell-thick wall border and floor interior, and fails with an InvalidDimension
error if height or width < 3 (the function lives in `navix/grid.py`, which is
not among the sources). -/
def room (height width : Nat) : Except GridError Grid :=
  if height < 3 ∨ width < 3 then Except.error GridError.InvalidDimension
  else Except.ok (mkRoomCells height width)

/-- The interior (floor, value 0) cells of a grid, in row-major order. -/
def interiorCells (grid : Grid) : List (Nat × Nat) :=
  ((List.range grid.length).map (fun i =>
    (List.range ((grid.getD i []).length)).filterMap (fun j =>
      if (grid.getD i []).getD j (-1) = 0 then some (i, j) else none))).flatten

/-- Modelled from the spec: `random_positions(rng, grid, n)` draws n distinct
interior cell coordinates without replacement, deterministically given the
token, and raises a CapacityError if n exceeds the available interior cells
(`navix/grid.py` is not among the sources). -/
def random_positions (rng : Nat) (grid : Grid) (n : Nat) :
    Except GridError (List (Nat × Nat)) :=
  let interior := interiorCells grid
  if interior.length < n then Except.error GridError.CapacityError
  else Except.ok ((interior.rotate rng).take n)

/-- Modelled from the spec: `random_directions(rng, n)` draws n headings in
{0,1,2,3}, deterministically given the token (`navix/grid.py` is not among the
sources). -/
def random_directions (rng : Nat) (n : Nat) : List Nat :=
  (List.range n).map (fun i => (rng + i) % 4)

/-- Modelled from the spec: the random-source token is opaque and
`split(token, n)` deterministically fans it out into fresh sub-tokens
(`jax.random.split`, external to the repository); here specialised to the
three-way split used by the reset functions. -/
def split3 (key : Nat) : Nat × Nat × Nat :=
  (3 * key + 1, 3 * key + 2, 3 * key + 3)

/-- Cell lookup at an integer coordinate pair; out-of-range coordinates read as
wall. -/
def cellAt (grid : Grid) (p : Int × Int) : Int :=
  if p.1 < 0 ∨ p.2 < 0 then -1
  else (grid.getD p.1.toNat []).getD p.2.toNat (-1)

/-! ## Entity and state records (`navix/components.py`) -/

/-- An entity position of (-1, -1) means "not placed" (spec section 3). -/
def placed (p : Int × Int) : Bool := decide (p ≠ (-1, -1))

/-- Player entity: position, heading and the 1-slot pocket
(`navix/components.py`). -/
structure Player where
  position : Int × Int := (-1, -1)
  direction : Int := 0
  pocket : Int := 0
deriving DecidableEq

/-- Goal entity with its success probability (`navix/components.py`). -/
structure Goal where
  position : Int × Int := (-1, -1)
  probability : Rat := 1
deriving DecidableEq

/-- Pickable entity with its item id (`navix/components.py`). -/
structure Pickable where
  position : Int × Int := (-1, -1)
  id : Int := -1
deriving DecidableEq

/-- Consumable entity with its required tool and replacement cell value
(`navix/components.py`). -/
structure Consumable where
  position : Int × Int := (-1, -1)
  requires : Int := -1
  replacement : Int := 0
deriving DecidableEq

/-- The Markovian state of the environment (`navix/components.py`): random key,
grid, and one batch each of player, goals, keys and doors. -/
structure State where
  key : Nat
  grid : Grid
  player : Player
  goals : Goal := {}
  keys : Pickable := {}
  doors : Consumable := {}
deriving DecidableEq

/-- Step type TRANSITION = 0 (`navix/components.py`). -/
def StepType.TRANSITION : Nat := 0

/-- Step type TRUNCATION = 1 (`navix/components.py`). -/
def StepType.TRUNCATION : Nat := 1

/-- Step type TERMINATION = 2 (`navix/components.py`). -/
def StepType.TERMINATION : Nat := 2

/-- The externally observable output record (`navix/components.py`); `info` is
an open key/value side channel defaulting to the empty dictionary. -/
structure Timestep (S Obs : Type) where
  t : Nat
  observation : Obs
  action : Nat
  reward : Rat
  step_type : Nat
  state : S
  info : List (String × Int) := []
deriving DecidableEq

/-! ## Environment machinery (`navix/environments/environment.py`) -/

/-- Modelled from the spec: the termination/truncation combination rule of
section 4.5 (`check_truncation` lives in `navix/termination.py`, which is not
among the sources): terminated wins over truncated, else truncated, else a
plain transition. -/
def check_truncation (terminated truncated : Bool) : Nat :=
  if terminated then StepType.TERMINATION
  else if truncated then StepType.TRUNCATION
  else StepType.TRANSITION

/-- Environment configuration (`navix/environments/environment.py`): fixed
dimensions, step budget and the injected observation, reward and termination
functions. -/
structure Environment (S Obs : Type) where
  width : Nat
  height : Nat
  max_steps : Nat
  gamma : Rat := 1
  observation_fn : S → Obs
  reward_fn : S → Nat → S → Rat
  termination_fn : S → Nat → S → Bool

/-- `jax.lax.switch`: selects the `index`-th branch, clamping an out-of-range
index into the valid range. -/
def switchApply (branches : List (State → State)) (index : Nat) (s : State) : State :=
  (branches.getD (min index (branches.length - 1)) (fun x => x)) s

/-- `Environment.observation` (`navix/environments/environment.py`). -/
def Environment.observation {S Obs : Type} (env : Environment S Obs) (state : S) : Obs :=
  env.observation_fn state

/-- `Environment.reward` (`navix/environments/environment.py`). -/
def Environment.reward {S Obs : Type} (env : Environment S Obs)
    (state : S) (action : Nat) (new_state : S) : Rat :=
  env.reward_fn state action new_state

/-- `Environment.termination` (`navix/environments/environment.py`): the
termination predicate combined with the `t >= max_steps` truncation test. -/
def Environment.termination {S Obs : Type} (env : Environment S Obs)
    (prev_state : S) (action : Nat) (state : S) (t : Nat) : Nat :=
  check_truncation (env.termination_fn prev_state action state)
    (decide (env.max_steps ≤ t))

/-- `Environment._step` (`navix/environments/environment.py`): apply the
selected action function and assemble the new Timestep. -/
def Environment._step {Obs : Type} (env : Environment State Obs)
    (timestep : Timestep State Obs) (action : Nat)
    (actions_set : List (State → State)) : Timestep State Obs :=
  let state := switchApply actions_set action timestep.state
  { t := timestep.t + 1
    state := state
    action := action
    reward := Environment.reward env timestep.state action state
    step_type := Environment.termination env timestep.state action state (timestep.t + 1)
    observation := Environment.observation env state }

/-- `Environment.step` (`navix/environments/environment.py`), with the
dynamic dispatch to the concrete `reset` made explicit: auto-reset from the
carried key when the previous step type is not TRANSITION, else `_step`. -/
def Environment.stepWith {Obs : Type} (env : Environment State Obs)
    (reset : Nat → Except GridError (Timestep State Obs))
    (timestep : Timestep State Obs) (action : Nat)
    (actions_set : List (State → State)) : Except GridError (Timestep State Obs) :=
  if timestep.step_type > 0 then reset timestep.state.key
  else Except.ok (Environment._step env timestep action actions_set)

/-! ## The Room environment of `navix/environments/room.py` -/

/-- The `Room` environment class of `navix/environments/room.py`. -/
structure Room (Obs : Type) extends Environment State Obs

/-- `Room.reset` (`navix/environments/room.py`): split the key, build the room
grid, place the player at (0, 0) and the goal at (width - 1, height - 1), and
return the initial Timestep. -/
def Room.reset {Obs : Type} (r : Room Obs) (key : Nat) :
    Except GridError (Timestep State Obs) :=
  match room r.width r.height with
  | Except.error e => Except.error e
  | Except.ok grid =>
      let player : Player := { position := (0, 0) }
      let goal : Goal := { position := ((r.width : Int) - 1, (r.height : Int) - 1) }
      let state : State := { key := (split3 key).1, grid := grid,
                             player := player, goals := goal }
      Except.ok { t := 0, observation := r.observation_fn state, action := 0,
                  reward := 0, step_type := 0, state := state }

/-- `Room.step`: the inherited `Environment.step` with `self.reset`
dispatched to `Room.reset`. -/
def Room.step {Obs : Type} (r : Room Obs) (timestep : Timestep State Obs)
    (action : Nat) (actions_set : List (State → State)) :
    Except GridError (Timestep State Obs) :=
  Environment.stepWith r.toEnvironment (Room.reset r) timestep action actions_set

/-! ## The Room environment of `navix/environments/empty.py` -/

namespace Empty

/-- Modelled from the spec: the Markovian state of the newer environments
(`navix/states.py` is not among the sources): the random token, the grid and
the entity batches built by `_reset` (the rendering cache is outside the
spec's scope). -/
structure State where
  key : Nat
  grid : Grid
  players : List Player
  goals : List Goal
deriving DecidableEq

end Empty

/-- Modelled from the spec: the EMPTY sentinel for the player pocket
(`EMPTY_POCKET_ID` is imported from a components module not among the sources;
the `Player` default pocket in `navix/components.py` is 0). -/
def EMPTY_POCKET_ID : Int := 0

/-- Modelled from the spec: the `Player.create` constructor of the entities
module, which is not among the sources. -/
def Player.create (position : Int × Int) (direction : Int) (pocket : Int) : Player :=
  { position := position, direction := direction, pocket := pocket }

/-- Modelled from the spec: the `Goal.create` constructor of the entities
module, which is not among the sources. -/
def Goal.create (position : Int × Int) (probability : Rat) : Goal :=
  { position := position, probability := probability }

/-- Coordinate cast helper used by the random placement branch. -/
def natPos (p : Nat × Nat) : Int × Int := (Int.ofNat p.1, Int.ofNat p.2)

namespace Empty

/-- The `Room` environment class of `navix/environments/empty.py`, with its
`random_start` flag. -/
structure Room (Obs : Type) extends Environment State Obs where
  random_start : Bool := false

/-- The goal/player placement branch of `Room._reset`
(`navix/environments/empty.py`): random interior positions and heading when
`random_start` is set, else the fixed cells (1, 1) and
(height - 2, width - 2) with heading 0. -/
def Room.placing {Obs : Type} (r : Room Obs) (k1 k2 : Nat) (grid : Grid) :
    Except GridError ((Int × Int) × (Int × Int) × Int) :=
  if r.random_start then
    match random_positions k1 grid 2 with
    | Except.error e => Except.error e
    | Except.ok ps =>
        Except.ok (natPos (ps.getD 0 (0, 0)), natPos (ps.getD 1 (0, 0)),
          Int.ofNat ((random_directions k2 1).getD 0 0))
  else
    Except.ok ((1, 1), ((r.height : Int) - 2, (r.width : Int) - 2), 0)

/-- `Room._reset` (`navix/environments/empty.py`): split the key, build the
room grid, place player and goal, and return the initial Timestep. -/
def Room._reset {Obs : Type} (r : Room Obs) (key : Nat) :
    Except GridError (Timestep State Obs) :=
  match room r.height r.width with
  | Except.error e => Except.error e
  | Except.ok grid =>
      match Room.placing r (split3 key).2.1 (split3 key).2.2 grid with
      | Except.error e => Except.error e
      | Except.ok pg =>
          let player := Player.create pg.1 pg.2.2 EMPTY_POCKET_ID
          let goal := Goal.create pg.2.1 1
          let state : State := { key := (split3 key).1, grid := grid,
                                 players := [player], goals := [goal] }
          Except.ok { t := 0, observation := r.observation_fn state, action := 0,
                      reward := 0, step_type := 0, state := state }

end Empty

/-! ## The grid/entity consistency invariant (spec section 3) -/

/-- A placed entity that is not stored in the grid must stand on a floor
cell. -/
def entityOnFloor (grid : Grid) (p : Int × Int) : Bool :=
  !placed p || (cellAt grid p == 0)

/-- How many live id-bearing entities of a state own the grid id `v`
(`Pickable` is the id-bearing entity kind of `navix/components.py`). -/
def ownersCount (s : State) (v : Int) : Nat :=
  if placed s.keys.position && s.keys.id == v then 1 else 0

/-- Modelled from the spec: the grid/entity consistency invariant of section 3
for the state record of `navix/components.py`: the placed player and goal
stand on floor cells (they are never written into the grid), and every
positive grid cell id is owned by exactly one live id-bearing entity. -/
def State.consistentb (s : State) : Bool :=
  entityOnFloor s.grid s.player.position &&
  entityOnFloor s.grid s.goals.position &&
  (List.range s.grid.length).all (fun i =>
    (List.range ((s.grid.getD i []).length)).all (fun j =>
      let v := (s.grid.getD i []).getD j (-1)
      decide (v ≤ 0) || ownersCount s v == 1))

/-- Modelled from the spec: the grid/entity consistency invariant of section 3
for the state built by `navix/environments/empty.py`: all placed players and
goals stand on floor cells, and, since the entity dictionary built by `_reset`
carries no id-bearing batch, no grid cell may hold a positive id. -/
def Empty.State.consistentb (s : Empty.State) : Bool :=
  s.players.all (fun p => entityOnFloor s.grid p.position) &&
  s.goals.all (fun g => entityOnFloor s.grid g.position) &&
  (List.range s.grid.length).all (fun i =>
    (List.range ((s.grid.getD i []).length)).all (fun j =>
      decide ((s.grid.getD i []).getD j (-1) ≤ 0)))

/-! ## Concrete 5x5 instances used as evaluation inputs -/

/-- A concrete 5x5 environment configuration over `navix/components.py`
states, with trivial injected functions. -/
def env5 : Environment State Int :=
  { width := 5, height := 5, max_steps := 100,
    observation_fn := fun _ => 0,
    reward_fn := fun _ _ _ => 0,
    termination_fn := fun _ _ _ => false }

/-- The 5x5 `Room` environment of `navix/environments/room.py`. -/
def r5 : Room Int := { toEnvironment := env5 }

/-- The 5x5 non-random `Room` environment of `navix/environments/empty.py`. -/
def e5 : Empty.Room Int :=
  { width := 5, height := 5, max_steps := 100,
    observation_fn := fun _ => 0,
    reward_fn := fun _ _ _ => 0,
    termination_fn := fun _ _ _ => false,
    random_start := false }

/-- A concrete mid-episode state for the 5x5 room. -/
def state5 : State :=
  { key := 0, grid := mkRoomCells 5 5, player := { position := (1, 1) } }

/-- A concrete mid-episode Timestep with step type TRANSITION and a non-empty
info dictionary. -/
def ts0 : Timestep State Int :=
  { t := 3, observation := 0, action := 2, reward := 1, step_type := 0,
    state := state5, info := [(("leftover" : String), (1 : Int))] }

/-- The same Timestep after a termination signal. -/
def tsDone : Timestep State Int := { ts0 with step_type := 2 }

/-- The Timestep returned by `Room.reset r5 0`. -/
def tsA : Timestep State Int :=
  { t := 0, observation := 0, action := 0, reward := 0, step_type := 0,
    state := { key := 1, grid := mkRoomCells 5 5,
               player := { position := (0, 0) },
               goals := { position := (4, 4) } } }

/-- The Timestep returned by `Room.reset r5 7`: identical to `tsA` except for
the stored key. -/
def tsA7 : Timestep State Int := { tsA with state := { tsA.state with key := 22 } }

/-- The Timestep returned by `Empty.Room._reset e5 0`. -/
def tsB : Timestep Empty.State Int :=
  { t := 0, observation := 0, action := 0, reward := 0, step_type := 0,
    state := { key := 1, grid := mkRoomCells 5 5,
               players := [Player.create (1, 1) 0 EMPTY_POCKET_ID],
               goals := [Goal.create (3, 3) 1] } }

/-! ## Helper lemmas -/

theorem getD_map_range {α : Type} (f : Nat → α) (n i : Nat) (d : α) (h : i < n) :
    ((List.range n).map f).getD i d = f i := by
  rw [List.getD_eq_getElem?_getD, List.getElem?_map, List.getElem?_range h]
  rfl

theorem mkRoomCells_getD (h w i j : Nat) (hi : i < h) (hj : j < w) :
    ((mkRoomCells h w).getD i []).getD j (-1) =
      if i = 0 ∨ i = h - 1 ∨ j = 0 ∨ j = w - 1 then (-1 : Int) else 0 := by
  unfold mkRoomCells
  rw [getD_map_range _ _ _ _ hi]
  exact getD_map_range _ _ _ _ hj

theorem switchApply_eq_get (as : List (State → State)) (a : Nat) (s : State)
    (ha : a < as.length) : switchApply as a s = as.get ⟨a, ha⟩ s := by
  unfold switchApply
  rw [Nat.min_eq_left (Nat.le_sub_one_of_lt ha)]
  rw [List.getD_eq_getElem?_getD, List.getElem?_eq_getElem ha]
  rfl

theorem room_reset_ok_fields {Obs : Type} (r : Room Obs) (key : Nat)
    (ts : Timestep State Obs) (h : Room.reset r key = Except.ok ts) :
    ts.t = 0 ∧ ts.action = 0 ∧ ts.reward = 0 ∧ ts.step_type = 0 ∧
    ts.info = [] ∧
    ts.state.key = (split3 key).1 ∧
    ts.state.player = { position := (0, 0) } ∧
    ts.state.goals = { position := ((r.width : Int) - 1, (r.height : Int) - 1) } ∧
    ts.state.keys = {} ∧ ts.state.doors = {} ∧
    room r.width r.height = Except.ok ts.state.grid := by
  unfold Room.reset at h
  split at h
  · exact Except.noConfusion h
  · rename_i grid heq
    injection h with h2
    subst h2
    exact ⟨rfl, rfl, rfl, rfl, rfl, rfl, rfl, rfl, rfl, rfl, heq⟩

theorem empty_reset_ok_fields {Obs : Type} (e : Empty.Room Obs) (key : Nat)
    (ts : Timestep Empty.State Obs) (h : Empty.Room._reset e key = Except.ok ts) :
    ts.t = 0 ∧ ts.action = 0 ∧ ts.reward = 0 ∧ ts.step_type = 0 ∧ ts.info = [] := by
  unfold Empty.Room._reset at h
  split at h
  · exact Except.noConfusion h
  · split at h
    · exact Except.noConfusion h
    · injection h with h2
      subst h2
      exact ⟨rfl, rfl, rfl, rfl, rfl⟩

/-! ## Claims -/

/-- C1: calling `step` on a Timestep whose step type is not TRANSITION ignores
the supplied action and action set, returns the internal reset seeded from the
key carried in the previous state, and any successfully returned Timestep has
t = 0. -/
theorem step_autoreset_ignores_action {Obs : Type} (r : Room Obs)
    (ts : Timestep State Obs) (a b : Nat) (as1 as2 : List (State → State))
    (h : ts.step_type > 0) :
    Room.step r ts a as1 = Room.reset r ts.state.key ∧
    Room.step r ts a as1 = Room.step r ts b as2 ∧
    ∀ out : Timestep State Obs, Room.step r ts a as1 = Except.ok out → out.t = 0 := by
  have hstep : ∀ (c : Nat) (cs : List (State → State)),
      Room.step r ts c cs = Room.reset r ts.state.key := by
    intro c cs
    unfold Room.step Environment.stepWith
    rw [if_pos h]
  refine ⟨hstep a as1, (hstep a as1).trans (hstep b as2).symm, ?_⟩
  intro out hout
  rw [hstep a as1] at hout
  exact (room_reset_ok_fields r ts.state.key out hout).1

/-- C1 witness: on a concrete terminated Timestep, `step` equals the reset of
the carried key, is action-independent, and yields t = 0. -/
theorem step_autoreset_ignores_action_witness :
    Room.step r5 tsDone 0 [] = Room.reset r5 tsDone.state.key ∧
    Room.step r5 tsDone 0 [] = Room.step r5 tsDone 1 [fun s => s] ∧
    ∀ out : Timestep State Int, Room.step r5 tsDone 0 [] = Except.ok out → out.t = 0 :=
  step_autoreset_ignores_action r5 tsDone 0 1 [] [fun s => s] (by decide)

/-- C2: the step type assembled by `_step` is the combination of the injected
termination predicate with the truncation test at time old.t + 1, and the
combination rule gives TERMINATION priority over TRUNCATION; in particular
both signals together yield TERMINATION. -/
theorem step_type_combination {Obs : Type} (env : Environment State Obs)
    (ts : Timestep State Obs) (a : Nat) (as : List (State → State)) :
    (Environment._step env ts a as).step_type =
      check_truncation (env.termination_fn ts.state a (switchApply as a ts.state))
        (decide (env.max_steps ≤ ts.t + 1)) ∧
    (∀ term trunc : Bool, check_truncation term trunc =
      if term = true then StepType.TERMINATION
      else if trunc = true then StepType.TRUNCATION
      else StepType.TRANSITION) ∧
    check_truncation true true = StepType.TERMINATION := by
  refine ⟨rfl, ?_, rfl⟩
  intro term trunc
  cases term <;> cases trunc <;> rfl

/-- C3: on a TRANSITION Timestep with an in-range action id, `step` takes the
non-reset branch, and the new Timestep's state is the selected action function
applied to the old state, with t incremented, the action recorded, the reward
computed by the injected reward function on (old state, action, new state),
and the observation computed by the injected observation function on the new
state. -/
theorem step_transition_fields {Obs : Type} (env : Environment State Obs)
    (reset : Nat → Except GridError (Timestep State Obs))
    (ts : Timestep State Obs) (a : Nat) (as : List (State → State))
    (h0 : ts.step_type = StepType.TRANSITION) (ha : a < as.length) :
    Environment.stepWith env reset ts a as = Except.ok (Environment._step env ts a as) ∧
    (Environment._step env ts a as).state = as.get ⟨a, ha⟩ ts.state ∧
    (Environment._step env ts a as).t = ts.t + 1 ∧
    (Environment._step env ts a as).action = a ∧
    (Environment._step env ts a as).reward =
      env.reward_fn ts.state a (as.get ⟨a, ha⟩ ts.state) ∧
    (Environment._step env ts a as).observation =
      env.observation_fn (as.get ⟨a, ha⟩ ts.state) := by
  have hswitch := switchApply_eq_get as a ts.state ha
  have hnot : ¬ ts.step_type > 0 := by rw [h0]; decide
  refine ⟨?_, hswitch, rfl, rfl, ?_, ?_⟩
  · unfold Environment.stepWith
    exact if_neg hnot
  · rw [← hswitch]; rfl
  · rw [← hswitch]; rfl

/-- C3 witness: a concrete transition step on the 5x5 room with the identity
action table increments t and records the action. -/
theorem step_transition_fields_witness :
    (Environment._step env5 ts0 0 [fun s => s]).t = 4 ∧
    (Environment._step env5 ts0 0 [fun s => s]).action = 0 ∧
    Environment.stepWith env5 (Room.reset r5) ts0 0 [fun s => s] =
      Except.ok (Environment._step env5 ts0 0 [fun s => s]) := by
  have h := step_transition_fields env5 (Room.reset r5) ts0 0 [fun s => s] rfl (by decide)
  exact ⟨by rw [h.2.2.1]; rfl, h.2.2.2.1, h.1⟩

/-- C5: reset and step are deterministic pure functions of their inputs: equal
seed tokens give equal reset Timesteps, and identical (Timestep, action,
action set) inputs give identical step results. -/
theorem reset_step_deterministic {Obs : Type} (r : Room Obs) (k1 k2 : Nat)
    (ts1 ts2 : Timestep State Obs) (a1 a2 : Nat)
    (as1 as2 : List (State → State))
    (hk : k1 = k2) (hts : ts1 = ts2) (ha : a1 = a2) (has : as1 = as2) :
    Room.reset r k1 = Room.reset r k2 ∧
    Room.step r ts1 a1 as1 = Room.step r ts2 a2 as2 := by
  subst hk; subst hts; subst ha; subst has
  exact ⟨rfl, rfl⟩

/-- C5 witness: determinism at a concrete seed and a concrete
(Timestep, action) input. -/
theorem reset_step_deterministic_witness :
    Room.reset r5 0 = Room.reset r5 0 ∧
    Room.step r5 ts0 2 [] = Room.step r5 ts0 2 [] :=
  reset_step_deterministic r5 0 0 ts0 ts0 2 2 [] [] rfl rfl rfl rfl

/-- C7: for every seed token, a Timestep successfully returned by reset (in
either Room variant) has t = 0, the sentinel action 0, zero reward and step
type TRANSITION. -/
theorem reset_initial_timestep {Obs1 Obs2 : Type} (r : Room Obs1)
    (e : Empty.Room Obs2) (k1 k2 : Nat)
    (ts1 : Timestep State Obs1) (ts2 : Timestep Empty.State Obs2)
    (h1 : Room.reset r k1 = Except.ok ts1)
    (h2 : Empty.Room._reset e k2 = Except.ok ts2) :
    ts1.t = 0 ∧ ts1.action = 0 ∧ ts1.reward = 0 ∧
    ts1.step_type = StepType.TRANSITION ∧
    ts2.t = 0 ∧ ts2.action = 0 ∧ ts2.reward = 0 ∧
    ts2.step_type = StepType.TRANSITION := by
  obtain ⟨ha, hb, hc, hd, -⟩ := room_reset_ok_fields r k1 ts1 h1
  obtain ⟨he, hf, hg, hh, -⟩ := empty_reset_ok_fields e k2 ts2 h2
  exact ⟨ha, hb, hc, hd, he, hf, hg, hh⟩

/-- C7 witness: the concrete reset outputs of both 5x5 Room variants at seed 0
carry t = 0, action 0, reward 0 and step type TRANSITION. -/
theorem reset_initial_timestep_witness :
    tsA.t = 0 ∧ tsA.action = 0 ∧ tsA.reward = 0 ∧
    tsA.step_type = StepType.TRANSITION ∧
    tsB.t = 0 ∧ tsB.action = 0 ∧ tsB.reward = 0 ∧
    tsB.step_type = StepType.TRANSITION :=
  reset_initial_timestep r5 e5 0 0 tsA tsB rfl rfl

/-- C8: `room` is deterministic, fails with InvalidDimension exactly when
height < 3 or width < 3, and otherwise succeeds with a grid whose border
cells are wall and whose interior cells are floor. -/
theorem room_dimension_contract (h w : Nat) :
    (∀ h2 w2 : Nat, h2 = h → w2 = w → room h2 w2 = room h w) ∧
    (room h w = Except.error GridError.InvalidDimension ↔ h < 3 ∨ w < 3) ∧
    (¬(h < 3 ∨ w < 3) → room h w = Except.ok (mkRoomCells h w)) ∧
    (∀ g : Grid, room h w = Except.ok g → ∀ i j : Nat, i < h → j < w →
      (g.getD i []).getD j (-1) =
        if i = 0 ∨ i = h - 1 ∨ j = 0 ∨ j = w - 1 then (-1 : Int) else 0) := by
  refine ⟨fun h2 w2 e1 e2 => by rw [e1, e2], ?_⟩
  unfold room
  by_cases hc : h < 3 ∨ w < 3
  · rw [if_pos hc]
    refine ⟨⟨fun _ => hc, fun _ => rfl⟩, fun hn => absurd hc hn, ?_⟩
    intro g hg
    exact Except.noConfusion hg
  · rw [if_neg hc]
    refine ⟨⟨fun he => Except.noConfusion he, fun hlt => absurd hlt hc⟩,
      fun _ => rfl, ?_⟩
    intro g hg i j hi hj
    injection hg with hg2
    subst hg2
    exact mkRoomCells_getD h w i j hi hj

/-- C8 witness: a 2x5 request fails with InvalidDimension, and in the 5x5 room
the corner cell (0, 0) is wall while the interior cell (1, 1) is floor. -/
theorem room_dimension_contract_witness :
    room 2 5 = Except.error GridError.InvalidDimension ∧
    ((mkRoomCells 5 5).getD 0 []).getD 0 (-1) = (-1 : Int) ∧
    ((mkRoomCells 5 5).getD 1 []).getD 1 (-1) = (0 : Int) := by
  have hfail := ((room_dimension_contract 2 5).2.1).mpr (Or.inl (by decide))
  have hwall := (room_dimension_contract 5 5).2.2.2 (mkRoomCells 5 5) rfl 0 0
    (by decide) (by decide)
  have hfloor := (room_dimension_contract 5 5).2.2.2 (mkRoomCells 5 5) rfl 1 1
    (by decide) (by decide)
  exact ⟨hfail, by simpa using hwall, by simpa using hfloor⟩

/-- C9: on the non-reset branch, the Timestep built by `_step` carries an
empty info dictionary, whatever the info field of the input Timestep held. -/
theorem step_info_not_propagated {Obs : Type} (env : Environment State Obs)
    (reset : Nat → Except GridError (Timestep State Obs))
    (ts : Timestep State Obs) (a : Nat) (as : List (State → State))
    (h : ts.step_type = StepType.TRANSITION) :
    (Environment._step env ts a as).info = [] ∧
    Environment.stepWith env reset ts a as =
      Except.ok (Environment._step env ts a as) := by
  have hnot : ¬ ts.step_type > 0 := by rw [h]; decide
  exact ⟨rfl, by unfold Environment.stepWith; exact if_neg hnot⟩

/-- C9 witness: a concrete input Timestep with a non-empty info dictionary
steps to a Timestep with empty info. -/
theorem step_info_not_propagated_witness :
    (Environment._step env5 ts0 0 [fun s => s]).info = [] ∧
    Environment.stepWith env5 (Room.reset r5) ts0 0 [fun s => s] =
      Except.ok (Environment._step env5 ts0 0 [fun s => s]) :=
  step_info_not_propagated env5 (Room.reset r5) ts0 0 [fun s => s] rfl

/-- C10: the placement performed by the `room.py` reset is independent of the
seed token: any two successful resets agree on the grid, the player, the
goals, the keys and the doors, and each stored key is the first sub-token of
the corresponding split seed. -/
theorem reset_layout_seed_independent {Obs : Type} (r : Room Obs) (k1 k2 : Nat)
    (ts1 ts2 : Timestep State Obs)
    (h1 : Room.reset r k1 = Except.ok ts1)
    (h2 : Room.reset r k2 = Except.ok ts2) :
    ts1.state.grid = ts2.state.grid ∧
    ts1.state.player = ts2.state.player ∧
    ts1.state.goals = ts2.state.goals ∧
    ts1.state.keys = ts2.state.keys ∧
    ts1.state.doors = ts2.state.doors ∧
    ts1.state.key = (split3 k1).1 ∧ ts2.state.key = (split3 k2).1 := by
  obtain ⟨-, -, -, -, -, hkey1, hp1, hg1, hks1, hd1, hgrid1⟩ :=
    room_reset_ok_fields r k1 ts1 h1
  obtain ⟨-, -, -, -, -, hkey2, hp2, hg2, hks2, hd2, hgrid2⟩ :=
    room_reset_ok_fields r k2 ts2 h2
  have hgrid : Except.ok (ε := GridError) ts1.state.grid = Except.ok ts2.state.grid :=
    hgrid1.symm.trans hgrid2
  injection hgrid with hgrid
  exact ⟨hgrid, hp1.trans hp2.symm, hg1.trans hg2.symm, hks1.trans hks2.symm,
    hd1.trans hd2.symm, hkey1, hkey2⟩

/-- C10 witness: the resets of the 5x5 room at seeds 0 and 7 agree on every
state component except the stored key, which is the first sub-token of each
split. -/
theorem reset_layout_seed_independent_witness :
    tsA.state.grid = tsA7.state.grid ∧
    tsA.state.player = tsA7.state.player ∧
    tsA.state.goals = tsA7.state.goals ∧
    tsA.state.keys = tsA7.state.keys ∧
    tsA.state.doors = tsA7.state.doors ∧
    tsA.state.key = (split3 0).1 ∧ tsA7.state.key = (split3 7).1 :=
  reset_layout_seed_independent r5 0 7 tsA tsA7 rfl rfl

/-- C4: evaluation of both reset variants on the 5x5 configuration: the
`empty.py` non-random reset places the player at (1, 1) and the goal at
(height - 2, width - 2) = (3, 3) on the bordered room grid, but the `room.py`
reset instead places the player at (0, 0) and the goal at
(width - 1, height - 1) = (4, 4), which are wall border cells. -/
theorem room_reset_positions_eval :
    (Empty.Room._reset e5 0).toOption.map (fun ts =>
        (ts.state.players.map (fun p => p.position),
         ts.state.goals.map (fun g => g.position))) =
      some ([((1 : Int), (1 : Int))], [((3 : Int), (3 : Int))]) ∧
    (Empty.Room._reset e5 0).toOption.map (fun ts => ts.state.grid) =
      some (mkRoomCells 5 5) ∧
    (Room.reset r5 0).toOption.map (fun ts =>
        (ts.state.player.position, ts.state.goals.position)) =
      some (((0 : Int), (0 : Int)), ((4 : Int), (4 : Int))) ∧
    cellAt (mkRoomCells 5 5) (0, 0) = -1 ∧
    cellAt (mkRoomCells 5 5) (4, 4) = -1 ∧
    cellAt (mkRoomCells 5 5) (1, 1) = 0 ∧
    cellAt (mkRoomCells 5 5) (3, 3) = 0 := by
  decide

/-- C6: evaluation of the grid/entity consistency invariant on the states
built by the two 5x5 resets: the `empty.py` reset state satisfies it, while
the `room.py` reset state violates it because its player and goal stand on
wall border cells. -/
theorem reset_consistency_eval :
    (Empty.Room._reset e5 0).toOption.map (fun ts =>
        Empty.State.consistentb ts.state) = some true ∧
    (Room.reset r5 0).toOption.map (fun ts => State.consistentb ts.state) =
      some false := by
  decide

end Navix
